import Mathlib

/-!
# LinguaBridge — verification of the request/response orchestration pipeline

Shallow embedding of the core pipeline of the LinguaBridge repository:
the AIGateway operations (`resolveAudioLink`, `translateAudio`,
`translateAndSynthesizeText`, `synthesizeSpeech` in
`services/geminiService.ts`), the Orchestrator workflows
(`processAudioBlob`, `handleUrlSubmit` in `App.tsx`), and the AudioCodec
(`createWavBlob`, `decodeAudioData`, `decode` in `utils/audioUtils.ts`).

Remote calls are modelled by passing the (parsed) remote response, or an
oracle function from submitted request text to response, as an explicit
argument; JavaScript `undefined`-able fields become `Option`, JavaScript
truthiness of strings is modelled explicitly, and thrown errors become
`Except` errors carrying the thrown message or an error tag.
-/

namespace LinguaBridge

/-- Decidable equality for `Except`, available to evaluate the embedded
operations' results on concrete inputs. -/
instance exceptDecEq {α β : Type} [DecidableEq α] [DecidableEq β] :
    DecidableEq (Except α β)
  | .ok x, .ok y =>
    match decEq x y with
    | isTrue h => isTrue (h ▸ rfl)
    | isFalse h => isFalse (fun hh => h (by cases hh; rfl))
  | .ok _, .error _ => isFalse (fun h => Except.noConfusion h)
  | .error _, .ok _ => isFalse (fun h => Except.noConfusion h)
  | .error x, .error y =>
    match decEq x y with
    | isTrue h => isTrue (h ▸ rfl)
    | isFalse h => isFalse (fun hh => h (by cases hh; rfl))

/-- JavaScript `s.startsWith(pre)`: the first `pre.length` characters of
`s` are exactly `pre`. -/
def strStartsWith (s pre : String) : Bool :=
  s.data.take pre.data.length == pre.data

/-- JavaScript truthiness of a possibly-undefined string value:
`undefined` and the empty string are falsy, every other string truthy. -/
def optTruthy : Option String → Bool
  | none => false
  | some s => !(s == "")

/-- JavaScript `o || d` for a possibly-undefined string `o`:
yields `d` when `o` is `undefined` or empty, else the string itself. -/
def jsOrStr (o : Option String) (d : String) : String :=
  match o with
  | none => d
  | some s => if s == "" then d else s

/-- JavaScript `o || []` for a possibly-undefined array: any array
(including the empty one) is truthy, so only `undefined` is replaced. -/
def jsOrList (o : Option (List String)) : List String :=
  match o with
  | none => []
  | some l => l

/-! ## Link resolver (`resolveAudioLink`, geminiService) -/

/-- Parsed JSON body of the remote resolve response: fields `url`,
`textContent`, `sourceName` (strings, each possibly absent) and
`isProtected` (boolean; an absent field behaves as `false` under the
JavaScript truthiness tests the code applies to it). -/
structure ResolveData where
  url : Option String
  textContent : Option String
  sourceName : Option String
  isProtected : Bool
deriving DecidableEq, Repr

/-- Successful result of `resolveAudioLink`: the code returns either
an object with a `url` field (and `sourceName`) or an object with a
`textContent` field (and `sourceName`); the absent field is `undefined`. -/
structure ResolveSuccess where
  url : Option String
  textContent : Option String
  sourceName : Option String
deriving DecidableEq, Repr

/-- The two distinct throw sites of `resolveAudioLink`'s decision code:
the anti-scraping-protection message and the nothing-found message. -/
inductive ResolveError where
  | contentProtected
  | contentNotFound
deriving DecidableEq, Repr

/-- The thrown message for each resolver error, as in the source. -/
def ResolveError.message : ResolveError → String
  | .contentProtected => "该网站设置了高级反爬虫保护。AI 无法直接穿透防护获取内容。"
  | .contentNotFound => "未能在页面中发现可识别的音频或文章内容。"

/-- The condition of the first branch: `data.url && data.url.startsWith('http')`
(a truthy url that begins with the HTTP scheme). -/
def usableUrl (data : ResolveData) : Bool :=
  optTruthy data.url && strStartsWith (data.url.getD "") "http"

/-- Decision policy of `resolveAudioLink` applied to the parsed remote
response (geminiService lines 52-66):
if `data.url` is truthy, starts with `http` and `data.isProtected` is
falsy, return the url branch; else if `data.textContent` is truthy and
longer than 50 characters, return the text branch; else if
`data.isProtected` is truthy, throw the protection error; else throw the
not-found error. -/
def resolveAudioLink (data : ResolveData) : Except ResolveError ResolveSuccess :=
  if usableUrl data && !data.isProtected then
    .ok ⟨data.url, none, data.sourceName⟩
  else if optTruthy data.textContent && decide ((data.textContent.getD "").length > 50) then
    .ok ⟨none, data.textContent, data.sourceName⟩
  else if data.isProtected then
    .error .contentProtected
  else
    .error .contentNotFound

/-- The branch `handleUrlSubmit` (App.tsx lines 200-211) takes on a
resolver success: `if (sniff.url) … else if (sniff.textContent) …`,
with JavaScript truthiness; when neither field is truthy the function
body simply ends (no further state update). -/
inductive UrlBranch where
  | audio
  | textFallback
  | neither
deriving DecidableEq, Repr

/-- Branch selection of `handleUrlSubmit` on the resolver's result. -/
def chooseBranch (sniff : ResolveSuccess) : UrlBranch :=
  if optTruthy sniff.url then .audio
  else if optTruthy sniff.textContent then .textFallback
  else .neither

/-! ## Transcribe-and-translate (`translateAudio`, geminiService) -/

/-- Parsed JSON body of the remote transcription response: fields
`original`, `translated` (strings) and `summary` (array of strings),
each possibly absent. -/
structure TransData where
  original : Option String
  translated : Option String
  summary : Option (List String)
deriving DecidableEq, Repr

/-- Outcome of `JSON.parse(response.text || "{}")`: either the text is
not valid JSON and `JSON.parse` throws, or it yields an object whose
expected fields may each be missing (a missing `response.text` parses
as the empty object). -/
inductive ParseResult where
  | fail
  | ok (data : TransData)
deriving DecidableEq, Repr

/-- Success value of `translateAudio`. -/
structure TranslationOut where
  originalText : String
  translatedText : String
  summary : List String
deriving DecidableEq, Repr

/-- Response handling of `translateAudio` (geminiService lines 110-115):
a `JSON.parse` failure propagates as a thrown error; otherwise each
missing (or, for the strings, empty) field is defaulted via `||` and a
success value is returned. -/
def translateAudio (parsed : ParseResult) : Except String TranslationOut :=
  match parsed with
  | .fail => .error "SyntaxError: JSON parse failure"
  | .ok d => .ok ⟨jsOrStr d.original "", jsOrStr d.translated "", jsOrList d.summary⟩

/-! ## Speech synthesis (`synthesizeSpeech`, geminiService)

The raw-byte helper `decode` lives in `utils/audioUtils.ts`, which is not
part of the repository snapshot; it is modelled from the spec below. -/

/-- Nested shape of the remote TTS response along the optional chain
`response.candidates?.[0]?.content?.parts?.[0]?.inlineData?.data`. -/
structure InlineData where
  data : Option String
deriving DecidableEq, Repr

/-- One part of a TTS response candidate's content. -/
structure RespPart where
  inlineData : Option InlineData
deriving DecidableEq, Repr

/-- Content of a TTS response candidate. -/
structure RespContent where
  parts : List RespPart
deriving DecidableEq, Repr

/-- One candidate of a TTS response. -/
structure Candidate where
  content : Option RespContent
deriving DecidableEq, Repr

/-- A TTS remote response. -/
structure SynthResponse where
  candidates : Option (List Candidate)
deriving DecidableEq, Repr

/-- The optional chain
`response.candidates?.[0]?.content?.parts?.[0]?.inlineData?.data`:
`undefined` as soon as any link is absent. -/
def extractAudio (r : SynthResponse) : Option String :=
  ((((r.candidates.bind List.head?).bind Candidate.content).map
      RespContent.parts).bind List.head?).bind
    (fun p => p.inlineData.bind InlineData.data)

/-- Modelled from the spec: `decode` of `utils/audioUtils.ts` is absent
from the snapshot; per the spec's external-interface section, binary
audio is transmitted as embedded encoded bytes (base64), so `decode`
maps a base64 character to its 6-bit value. -/
def b64Val (c : Char) : Option Nat :=
  if 'A' ≤ c ∧ c ≤ 'Z' then some (c.toNat - 65)
  else if 'a' ≤ c ∧ c ≤ 'z' then some (c.toNat - 71)
  else if '0' ≤ c ∧ c ≤ '9' then some (c.toNat + 4)
  else if c = '+' then some 62
  else if c = '/' then some 63
  else none

/-- Modelled from the spec: bit-accumulation step of base64 decoding,
turning a stream of 6-bit values into 8-bit bytes. -/
def sextetsToBytes : List Nat → Nat → Nat → List Nat
  | [], _, _ => []
  | v :: vs, acc, nbits =>
    let acc' := acc * 64 + v
    let nbits' := nbits + 6
    if nbits' ≥ 8 then
      (acc' / 2 ^ (nbits' - 8)) :: sextetsToBytes vs (acc' % 2 ^ (nbits' - 8)) (nbits' - 8)
    else
      sextetsToBytes vs acc' nbits'

/-- Modelled from the spec: `decode` (utils/audioUtils.ts, absent from
the snapshot) converts a base64 string into its raw bytes. -/
def decode (s : String) : List Nat :=
  sextetsToBytes (s.data.filterMap b64Val) 0 0

/-- Response handling of `synthesizeSpeech` (geminiService lines 173-175):
extract the audio payload along the optional chain; if the result is
falsy (`undefined` or the empty string) throw `Voice synthesis failed`,
else return the decoded bytes. -/
def synthResponseToPcm (r : SynthResponse) : Except String (List Nat) :=
  match extractAudio r with
  | none => .error "Voice synthesis failed"
  | some s => if s == "" then .error "Voice synthesis failed" else .ok (decode s)

/-- `synthesizeSpeech` (geminiService lines 156-176) with the remote
call modelled as an oracle from the submitted text to the response: the
submitted text is `text.substring(0, 1000)`, and the response is handled
by `synthResponseToPcm`. -/
def synthesizeSpeech (tts : String → SynthResponse) (text : String) :
    Except String (List Nat) :=
  synthResponseToPcm (tts (text.take 1000))

/-! ## Text translation + synthesis (`translateAndSynthesizeText`, geminiService) -/

/-- Parsed JSON body of the remote text-translation response: fields
`translated` (string) and `summary` (array of strings), each possibly
absent. -/
structure TextTransData where
  translated : Option String
  summary : Option (List String)
deriving DecidableEq, Repr

/-- Success value of `translateAndSynthesizeText`: the code copies
`transData.summary` into the result without a default, so the field may
be `undefined`. -/
structure TextResult where
  originalText : String
  translatedText : String
  summary : Option (List String)
  pcmData : List Nat
deriving DecidableEq, Repr

/-- `translateAndSynthesizeText` (geminiService lines 121-151) with the
two remote calls as oracles from submitted text to parsed response: the
translation request carries `text.substring(0, 5000)`; then
`synthesizeSpeech` is called on `transData.translated` (a `TypeError` is
thrown there if that field is `undefined`, since `.substring` is applied
to it); on success the result's `originalText` is `text.substring(0, 500)`. -/
def translateAndSynthesizeText (rt : String → TextTransData)
    (tts : String → SynthResponse) (text : String) :
    Except String TextResult :=
  let transData := rt (text.take 5000)
  match transData.translated with
  | none => .error "TypeError: undefined has no substring"
  | some tr =>
    match synthesizeSpeech tts tr with
    | .error e => .error e
    | .ok pcm => .ok ⟨text.take 500, tr, transData.summary, pcm⟩

/-! ## Orchestrator (`App.tsx`) -/

/-- The status enum of `types.ts`. -/
inductive AppStatus where
  | IDLE
  | UPLOADING
  | TRANSCRIBING
  | SYNTHESIZING
  | COMPLETED
  | ERROR
deriving DecidableEq, Repr

/-- `ProcessingState` of `types.ts`. -/
structure ProcessingState where
  status : AppStatus
  progress : Nat
  message : String
  error : Option String := none
deriving DecidableEq, Repr

/-- The status strings of the active i18n table `t` used by the
workflows (`t.status_understanding`, `t.status_synthesizing`,
`t.status_completed`, `t.status_error`). -/
structure Msgs where
  understanding : String
  synthesizing : String
  completed : String
  statusError : String
deriving DecidableEq, Repr

/-- Sequence of `setProcessing` updates performed by `processAudioBlob`
(App.tsx lines 171-191), as a function of the parsed transcription
response and the TTS oracle: UPLOADING at 20, then on transcription
success SYNTHESIZING at 70, then on synthesis success COMPLETED at 100;
any caught error yields ERROR at progress 0 carrying the message. -/
def processAudioBlobStates (t : Msgs) (transParsed : ParseResult)
    (tts : String → SynthResponse) : List ProcessingState :=
  ⟨.UPLOADING, 20, t.understanding, none⟩ ::
  match translateAudio transParsed with
  | .error m => [⟨.ERROR, 0, t.statusError, some m⟩]
  | .ok tr =>
    ⟨.SYNTHESIZING, 70, t.synthesizing, none⟩ ::
    match synthesizeSpeech tts tr.translatedText with
    | .error m => [⟨.ERROR, 0, t.statusError, some m⟩]
    | .ok _ => [⟨.COMPLETED, 100, t.completed, none⟩]

/-- Sequence of `setProcessing` updates performed by `handleUrlSubmit`
(App.tsx lines 193-215): an empty (falsy) `urlInput` returns before any
update; otherwise UPLOADING at 10, then a caught resolver error yields
ERROR at 0, a truthy `sniff.url` fetches the bytes (a caught fetch
failure yields ERROR at 0) and hands off to `processAudioBlob`, a truthy
`sniff.textContent` sets SYNTHESIZING at 50 and runs
`translateAndSynthesizeText` (COMPLETED at 100 on success, ERROR at 0 on
a caught failure), and a resolver success with neither field leaves the
state untouched. `resolveRes` is the outcome of the awaited
`resolveAudioLink` call (`.error` for any message thrown up to and
including its decision code), `fetchRes` the outcome of fetching the
resolved url. -/
def handleUrlSubmitStates (t : Msgs) (urlInput : String)
    (resolveRes : Except String ResolveSuccess) (fetchRes : Except String Unit)
    (transParsed : ParseResult) (tts : String → SynthResponse)
    (rt : String → TextTransData) : List ProcessingState :=
  if urlInput == "" then []
  else
    ⟨.UPLOADING, 10, t.understanding, none⟩ ::
    match resolveRes with
    | .error m => [⟨.ERROR, 0, t.statusError, some m⟩]
    | .ok sniff =>
      match chooseBranch sniff with
      | .audio =>
        match fetchRes with
        | .error m => [⟨.ERROR, 0, t.statusError, some m⟩]
        | .ok _ => processAudioBlobStates t transParsed tts
      | .textFallback =>
        ⟨.SYNTHESIZING, 50, t.synthesizing, none⟩ ::
        match translateAndSynthesizeText rt tts (sniff.textContent.getD "") with
        | .error m => [⟨.ERROR, 0, t.statusError, some m⟩]
        | .ok _ => [⟨.COMPLETED, 100, t.completed, none⟩]
      | .neither => []

/-! ## AudioCodec (`createWavBlob`, `decodeAudioData`, utils/audioUtils.ts)

The file `utils/audioUtils.ts` is imported by `App.tsx` but absent from
the repository snapshot; the codec is modelled from the spec (its
AudioCodec section and the produced-artifact interface). -/

/-- Two bytes of a 16-bit little-endian unsigned value. -/
def u16le (n : Nat) : List Nat :=
  [n % 256, n / 256 % 256]

/-- Four bytes of a 32-bit little-endian unsigned value. -/
def u32le (n : Nat) : List Nat :=
  [n % 256, n / 256 % 256, n / 65536 % 256, n / 16777216 % 256]

/-- Modelled from the spec: the fixed 44-byte standard uncompressed-audio
(WAV/RIFF) header written by `buildPlayableContainer` for little-endian
16-bit mono PCM, encoding the computed file size, PCM format, channel
count 1, the sample rate, the derived byte rate and block align, bit
depth 16, and the data size. -/
def wavHeader (dataLen sampleRate : Nat) : List Nat :=
  [82, 73, 70, 70] ++ u32le (36 + dataLen) ++
  [87, 65, 86, 69] ++ [102, 109, 116, 32] ++ u32le 16 ++
  u16le 1 ++ u16le 1 ++ u32le sampleRate ++ u32le (sampleRate * 2) ++
  u16le 2 ++ u16le 16 ++
  [100, 97, 116, 97] ++ u32le dataLen

/-- Modelled from the spec: `buildPlayableContainer` (`createWavBlob` in
utils/audioUtils.ts, absent from the snapshot) emits the 44-byte header
followed by the raw PCM bytes unchanged. -/
def createWavBlob (pcm : List Nat) (sampleRate : Nat) : List Nat :=
  wavHeader pcm.length sampleRate ++ pcm

/-- A little-endian byte pair as a signed 16-bit sample amplitude. -/
def toInt16 (lo hi : Nat) : Int :=
  let v := lo + 256 * hi
  if v < 32768 then (v : Int) else (v : Int) - 65536

/-- Modelled from the spec: the sample amplitudes recovered by
`decodeToPlaybackBuffer` (`decodeAudioData` in utils/audioUtils.ts,
absent from the snapshot) from raw PCM bytes: consecutive little-endian
byte pairs as signed 16-bit values. The playback buffer stores these
normalized (divided by 32768), an injective rescaling; the amplitudes
themselves are what the round-trip property compares. -/
def decodeSamples : List Nat → List Int
  | lo :: hi :: rest => toInt16 lo hi :: decodeSamples rest
  | _ => []

/-! ## Theorems about the link resolver -/

/-- A protected response with 51 characters of extracted text: used to
exhibit the behaviour of the resolver's branch ordering. -/
def dProtLong : ResolveData :=
  ⟨none, some "aaaaaaaaaaaaaaaaaaaaaaaaaaaaaaaaaaaaaaaaaaaaaaaaaaa", some "blog", true⟩

/-- C1 (counterexample): a remote response with `protected = true`, no
usable URL, and 51 characters of extracted text does NOT fail with the
ContentProtected error — the text branch fires first and the call
succeeds, refuting the claim that protection wins regardless of text. -/
theorem resolveLink_protected_text_cex :
    dProtLong.isProtected = true ∧ usableUrl dProtLong = false ∧
    (dProtLong.textContent.getD "").length = 51 ∧
    resolveAudioLink dProtLong = .ok ⟨none, dProtLong.textContent, dProtLong.sourceName⟩ ∧
    resolveAudioLink dProtLong ≠ .error .contentProtected := by
  refine ⟨rfl, rfl, by decide, by decide, by decide⟩

/-- C1 (amended): for a remote response with `protected = true` and no
usable URL, `resolveAudioLink` fails with the ContentProtected error
unless the response carries extracted text longer than 50 characters
(in which case the text branch succeeds instead). -/
theorem resolveLink_contentProtected_of_no_url_no_longText
    (data : ResolveData) (hp : data.isProtected = true)
    (hu : usableUrl data = false)
    (ht : ¬(optTruthy data.textContent = true ∧ (data.textContent.getD "").length > 50)) :
    resolveAudioLink data = .error .contentProtected := by
  have h2 : (optTruthy data.textContent &&
      decide ((data.textContent.getD "").length > 50)) = false := by
    rcases h : (optTruthy data.textContent &&
        decide ((data.textContent.getD "").length > 50)) with _ | _
    · rfl
    · rw [Bool.and_eq_true, decide_eq_true_eq] at h
      exact absurd h ht
  simp [resolveAudioLink, hu, hp, h2]

/-- C1 (witness): the amended theorem at a concrete protected response
with no URL and short text. -/
theorem resolveLink_contentProtected_witness :
    resolveAudioLink ⟨none, some "short text", some "blog", true⟩ =
      .error .contentProtected :=
  resolveLink_contentProtected_of_no_url_no_longText
    ⟨none, some "short text", some "blog", true⟩ rfl rfl (by decide)

/-- An unprotected response with no URL and exactly 50 characters of
extracted text. -/
def dText50 : ResolveData :=
  ⟨none, some "aaaaaaaaaaaaaaaaaaaaaaaaaaaaaaaaaaaaaaaaaaaaaaaaaa", some "blog", false⟩

/-- An unprotected response with no URL and exactly 51 characters of
extracted text. -/
def dText51 : ResolveData :=
  ⟨none, some "aaaaaaaaaaaaaaaaaaaaaaaaaaaaaaaaaaaaaaaaaaaaaaaaaaa", some "blog", false⟩

/-- C2 (counterexample): with no usable URL, no protection flag, and
extracted text of exactly 50 characters, `resolveAudioLink` fails with
the ContentNotFound error — the code requires strictly more than 50
characters, refuting the claim that 50 characters suffice. -/
theorem resolveLink_text_exactly50_cex :
    usableUrl dText50 = false ∧ dText50.isProtected = false ∧
    (dText50.textContent.getD "").length = 50 ∧
    resolveAudioLink dText50 = .error .contentNotFound := by
  refine ⟨rfl, rfl, by decide, by decide⟩

/-- C2 (amended): for an unprotected remote response with no usable URL,
`resolveAudioLink` succeeds with the text branch exactly when the
extracted text is strictly longer than 50 characters, and fails with the
ContentNotFound error when it is not: at exactly 50 characters it fails
with ContentNotFound, at 51 it succeeds returning the text. -/
theorem resolveLink_text_branch_iff_gt50 (data : ResolveData)
    (hu : usableUrl data = false) (hp : data.isProtected = false) :
    (resolveAudioLink data = .ok ⟨none, data.textContent, data.sourceName⟩ ↔
      (data.textContent.getD "").length > 50) ∧
    ((data.textContent.getD "").length ≤ 50 →
      resolveAudioLink data = .error .contentNotFound) := by
  rcases data with ⟨u, tc, sn, p⟩
  cases hp
  rcases tc with _ | s
  · simp [resolveAudioLink, hu, optTruthy]
  · by_cases hlen : s.length > 50
    · have hne : (s == "") = false := by
        cases h : s == ""
        · rfl
        · have hs := eq_of_beq h
          subst hs
          simp at hlen
      constructor
      · simp [resolveAudioLink, hu, optTruthy, hne, hlen]
      · intro hle
        simp only [Option.getD_some] at hle
        omega
    · have h2 : (optTruthy (some s) && decide (((some s).getD "").length > 50)) = false := by
        simp [optTruthy, hlen]
      refine ⟨?_, fun _ => ?_⟩ <;> simp [resolveAudioLink, hu, h2, hlen]

/-- C2 (witness): the amended theorem at the two boundary inputs — 51
characters succeed with the text branch, 50 characters fail with
ContentNotFound. -/
theorem resolveLink_text_branch_witness :
    resolveAudioLink dText51 = .ok ⟨none, dText51.textContent, dText51.sourceName⟩ ∧
    resolveAudioLink dText50 = .error .contentNotFound :=
  ⟨(resolveLink_text_branch_iff_gt50 dText51 rfl rfl).1.mpr (by decide),
   (resolveLink_text_branch_iff_gt50 dText50 rfl rfl).2 (by decide)⟩

/-- C3 (confirmed): a remote response with a truthy URL beginning with
the HTTP scheme, not flagged protected, and non-empty extracted text
resolves to the url branch (text dropped), and the Orchestrator's branch
selection on that success follows the audio workflow. -/
theorem resolveLink_url_wins (data : ResolveData)
    (hu : optTruthy data.url = true)
    (hh : strStartsWith (data.url.getD "") "http" = true)
    (hp : data.isProtected = false)
    (ht : optTruthy data.textContent = true) :
    resolveAudioLink data = .ok ⟨data.url, none, data.sourceName⟩ ∧
    chooseBranch ⟨data.url, none, data.sourceName⟩ = .audio := by
  constructor
  · simp [resolveAudioLink, usableUrl, hu, hh, hp]
  · simp [chooseBranch, hu]

/-- C3 (witness): the theorem at a concrete response carrying both a
valid HTTP URL and non-empty text. -/
theorem resolveLink_url_wins_witness :
    resolveAudioLink ⟨some "http://cdn.ex/a.mp3", some "an article body", some "cdn", false⟩ =
      .ok ⟨some "http://cdn.ex/a.mp3", none, some "cdn"⟩ ∧
    chooseBranch ⟨some "http://cdn.ex/a.mp3", none, some "cdn"⟩ = .audio :=
  resolveLink_url_wins ⟨some "http://cdn.ex/a.mp3", some "an article body", some "cdn", false⟩
    (by decide) (by decide) rfl (by decide)

/-- C10 (confirmed): every successful result of `resolveAudioLink`
carries exactly one payload field — either a present URL with no text
content, or present text content with no URL. -/
theorem resolveLink_success_exclusive_payload (data : ResolveData)
    (s : ResolveSuccess) (h : resolveAudioLink data = .ok s) :
    (s.url.isSome ∧ s.textContent = none) ∨
    (s.url = none ∧ s.textContent.isSome) := by
  unfold resolveAudioLink at h
  split at h
  · rename_i hc
    cases h
    left
    rw [Bool.and_eq_true] at hc
    have hu : optTruthy data.url = true := by
      have := hc.1
      rw [usableUrl, Bool.and_eq_true] at this
      exact this.1
    rcases data with ⟨u, tc, sn, p⟩
    rcases u with _ | u
    · simp [optTruthy] at hu
    · exact ⟨rfl, rfl⟩
  · split at h
    · rename_i hc
      cases h
      right
      rw [Bool.and_eq_true] at hc
      rcases data with ⟨u, tc, sn, p⟩
      rcases tc with _ | tc
      · simp [optTruthy] at hc
      · exact ⟨rfl, rfl⟩
    · split at h <;> cases h

/-- C10 (witness): the theorem at a concrete resolvable response. -/
theorem resolveLink_success_exclusive_witness :
    ((some "http://cdn.ex/b.mp3" : Option String).isSome ∧
      (none : Option String) = none) ∨
    ((some "http://cdn.ex/b.mp3" : Option String) = none ∧
      (none : Option String).isSome) :=
  resolveLink_success_exclusive_payload
    ⟨some "http://cdn.ex/b.mp3", none, some "cdn", false⟩
    ⟨some "http://cdn.ex/b.mp3", none, some "cdn"⟩ (by decide)

/-! ## Theorems about the gateway's transcription and synthesis handling -/

/-- C6 (counterexample): a remote response whose text parses as the
empty JSON object — an object with none of the expected fields
`original`, `translated`, `summary` — does NOT make `translateAudio`
fail: it returns a success value with every field defaulted, refuting
the claim that an unparseable structured shape fails. -/
theorem translateAudio_defaults_cex :
    translateAudio (.ok ⟨none, none, none⟩) = .ok ⟨"", "", []⟩ ∧
    ∀ e, translateAudio (.ok ⟨none, none, none⟩) ≠ .error e :=
  ⟨rfl, fun _ h => Except.noConfusion h⟩

/-- C6 (amended): `translateAudio` fails only when the response text is
not valid JSON (`JSON.parse` throws); whenever the text parses as a JSON
object, it returns a success value in which each missing (or empty)
expected field is silently defaulted — empty strings for `original` and
`translated`, the empty list for `summary`. -/
theorem translateAudio_fails_only_on_parse_failure :
    (∀ p : ParseResult, (∃ e, translateAudio p = .error e) ↔ p = .fail) ∧
    (∀ d : TransData, translateAudio (.ok d) =
      .ok ⟨jsOrStr d.original "", jsOrStr d.translated "", jsOrList d.summary⟩) := by
  constructor
  · intro p
    cases p with
    | fail => exact ⟨fun _ => rfl, fun _ => ⟨_, rfl⟩⟩
    | ok d =>
      constructor
      · rintro ⟨e, he⟩
        exact absurd he (fun h => Except.noConfusion h)
      · intro h
        exact ParseResult.noConfusion h
  · intro d
    rfl

/-- C6 (witness): the amended theorem evaluated on a parse failure and
on a fully-populated parsed object. -/
theorem translateAudio_fails_witness :
    ((∃ e, translateAudio .fail = .error e) ↔ (.fail : ParseResult) = .fail) ∧
    translateAudio (.ok ⟨some "hi", some "bonjour", some ["a", "b", "c"]⟩) =
      .ok ⟨"hi", "bonjour", ["a", "b", "c"]⟩ :=
  ⟨translateAudio_fails_only_on_parse_failure.1 .fail,
   translateAudio_fails_only_on_parse_failure.2 ⟨some "hi", some "bonjour", some ["a", "b", "c"]⟩⟩

/-- A TTS response whose optional chain yields the empty string as the
audio payload. -/
def rEmptyPayload : SynthResponse :=
  ⟨some [⟨some ⟨[⟨some ⟨some ""⟩⟩]⟩⟩]⟩

/-- C7 (counterexample): a remote TTS response carrying a present but
empty audio payload makes `synthesizeSpeech` fail even though a payload
is present, refuting the claimed equivalence between failure and the
absence of an audio payload. -/
theorem synthesizeSpeech_empty_payload_cex :
    extractAudio rEmptyPayload = some "" ∧
    synthResponseToPcm rEmptyPayload = .error "Voice synthesis failed" := by
  exact ⟨rfl, rfl⟩

/-- C7 (amended): `synthesizeSpeech`'s response handling fails with the
synthesis error if and only if no non-empty audio payload is present
(the payload chain is absent, or present with the empty string); when a
non-empty payload is present it returns the decoded PCM bytes of that
payload. -/
theorem synthesizeSpeech_fails_iff_no_nonempty_payload (r : SynthResponse) :
    (synthResponseToPcm r = .error "Voice synthesis failed" ↔
      optTruthy (extractAudio r) = false) ∧
    (∀ s, extractAudio r = some s → s ≠ "" →
      synthResponseToPcm r = .ok (decode s)) := by
  constructor
  · cases h : extractAudio r with
    | none => simp [synthResponseToPcm, h, optTruthy]
    | some s =>
      cases hs : s == "" with
      | true =>
        have := eq_of_beq hs
        subst this
        simp [synthResponseToPcm, h, optTruthy]
      | false =>
        constructor
        · intro he
          simp [synthResponseToPcm, h, hs] at he
        · intro ho
          simp [optTruthy, hs] at ho
  · intro s hs hne
    have hb : (s == "") = false := by
      cases h : s == ""
      · rfl
      · exact absurd (eq_of_beq h) hne
    simp [synthResponseToPcm, hs, hb]

/-- A TTS response carrying the base64 payload of the bytes 65 66 67. -/
def rPayloadABC : SynthResponse :=
  ⟨some [⟨some ⟨[⟨some ⟨some "QUJD"⟩⟩]⟩⟩]⟩

/-- C7 (witness): the amended theorem at a response with a non-empty
payload, yielding the decoded bytes. -/
theorem synthesizeSpeech_fails_iff_witness :
    synthResponseToPcm rPayloadABC = .ok (decode "QUJD") :=
  (synthesizeSpeech_fails_iff_no_nonempty_payload rPayloadABC).2 "QUJD" rfl (by decide)

/-- C8 (confirmed): in the text-fallback workflow, the translation
request carries exactly the first 5000 characters of the input text, the
synthesis request independently carries exactly the first 1000
characters of the translated text, and the result's `originalText` is
exactly the first 500 characters of the input — both oracles are
consulted only at those truncated inputs. -/
theorem textWorkflow_truncations (rt : String → TextTransData)
    (tts : String → SynthResponse) (text tr : String) (pcm : List Nat)
    (h1 : (rt (text.take 5000)).translated = some tr)
    (h2 : synthResponseToPcm (tts (tr.take 1000)) = .ok pcm) :
    translateAndSynthesizeText rt tts text =
      .ok ⟨text.take 500, tr, (rt (text.take 5000)).summary, pcm⟩ := by
  have h2' : synthesizeSpeech tts tr = .ok pcm := h2
  simp only [translateAndSynthesizeText, h1, h2']

/-- Constant translation oracle used by concrete workflow evaluations. -/
def rtBonjour : String → TextTransData :=
  fun _ => ⟨some "bonjour", some ["a", "b", "c"]⟩

/-- Constant TTS oracle answering with the base64 payload "QUJD". -/
def ttsABC : String → SynthResponse :=
  fun _ => rPayloadABC

/-- C8 (witness): the truncation theorem at a concrete input text and
concrete oracles. -/
theorem textWorkflow_truncations_witness :
    translateAndSynthesizeText rtBonjour ttsABC "hello world" =
      .ok ⟨("hello world".take 500), "bonjour",
        (rtBonjour ("hello world".take 5000)).summary, decode "QUJD"⟩ :=
  textWorkflow_truncations rtBonjour ttsABC "hello world" "bonjour" (decode "QUJD")
    rfl rfl

/-! ## Theorems about the Orchestrator's progress/state updates -/

/-- Relation between two consecutive `setProcessing` updates that the
(amended) progress invariant asserts: an update entering ERROR resets
the progress to 0, and every other update does not decrease it. -/
def progressStep (s₁ s₂ : ProcessingState) : Prop :=
  if s₂.status = .ERROR then s₂.progress = 0 else s₁.progress ≤ s₂.progress

instance progressStepDecidable : DecidableRel progressStep := fun s₁ s₂ => by
  unfold progressStep
  infer_instance

/-- Every run of `processAudioBlob` satisfies `progressStep` between
consecutive state updates. -/
theorem chain_processAudioBlob (t : Msgs) (tp : ParseResult)
    (tts : String → SynthResponse) :
    List.Chain' progressStep (processAudioBlobStates t tp tts) := by
  unfold processAudioBlobStates
  cases htr : translateAudio tp with
  | error m => simp [List.chain'_cons, progressStep]
  | ok tr =>
    cases hsy : synthesizeSpeech tts tr.translatedText with
    | error m => simp [hsy, List.chain'_cons, progressStep]
    | ok pcm => simp [hsy, List.chain'_cons, progressStep]

/-- Every run of `handleUrlSubmit` satisfies `progressStep` between
consecutive state updates. -/
theorem chain_handleUrlSubmit (t : Msgs) (urlInput : String)
    (rres : Except String ResolveSuccess) (fres : Except String Unit)
    (tp : ParseResult) (tts : String → SynthResponse)
    (rt : String → TextTransData) :
    List.Chain' progressStep (handleUrlSubmitStates t urlInput rres fres tp tts rt) := by
  unfold handleUrlSubmitStates
  split
  · exact List.chain'_nil
  · cases rres with
    | error m => simp [List.chain'_cons, progressStep]
    | ok sniff =>
      cases hb : chooseBranch sniff with
      | audio =>
        cases fres with
        | error m => simp [hb, List.chain'_cons, progressStep]
        | ok u =>
          show List.Chain' progressStep
            (⟨.UPLOADING, 10, t.understanding, none⟩ ::
              match chooseBranch sniff with
              | .audio => processAudioBlobStates t tp tts
              | .textFallback =>
                (⟨.SYNTHESIZING, 50, t.synthesizing, none⟩ : ProcessingState) ::
                match translateAndSynthesizeText rt tts (sniff.textContent.getD "") with
                | .error m => [⟨.ERROR, 0, t.statusError, some m⟩]
                | .ok _ => [⟨.COMPLETED, 100, t.completed, none⟩]
              | .neither => [])
          rw [hb]
          have h := chain_processAudioBlob t tp tts
          unfold processAudioBlobStates at h ⊢
          rw [List.chain'_cons]
          exact ⟨by simp [progressStep], h⟩
      | textFallback =>
        cases htx : translateAndSynthesizeText rt tts (sniff.textContent.getD "") with
        | error m => simp [hb, htx, List.chain'_cons, progressStep]
        | ok res => simp [hb, htx, List.chain'_cons, progressStep]
      | neither => simp [hb, List.chain'_singleton]

/-- C4 (amended): within one operation lifecycle, every state update of
the two workflows other than an ERROR transition assigns a progress
greater than or equal to the previous one, while the ERROR transition
resets progress to 0 (a decrease whenever progress had been made). -/
theorem progress_monotone_except_error (t : Msgs) (tp : ParseResult)
    (tts : String → SynthResponse) (urlInput : String)
    (rres : Except String ResolveSuccess) (fres : Except String Unit)
    (rt : String → TextTransData) :
    List.Chain' progressStep (processAudioBlobStates t tp tts) ∧
    List.Chain' progressStep (handleUrlSubmitStates t urlInput rres fres tp tts rt) :=
  ⟨chain_processAudioBlob t tp tts,
   chain_handleUrlSubmit t urlInput rres fres tp tts rt⟩

/-- The active zh i18n status strings, for concrete workflow runs. -/
def mZh : Msgs :=
  ⟨"AI 深度理解内容中...", "正在合成中文配音...", "译制成功！", "处理中断"⟩

/-- A TTS oracle whose response carries no candidates. -/
def ttsNone : String → SynthResponse :=
  fun _ => ⟨none⟩

/-- A translation oracle whose parsed response has no fields. -/
def rtNone : String → TextTransData :=
  fun _ => ⟨none, none⟩

/-- C4 (counterexample): the file workflow on an unparseable
transcription response performs the updates UPLOADING at progress 20
followed by ERROR at progress 0 — a strictly decreasing step, refuting
the claim that every update (the ERROR transition included) assigns a
progress greater than or equal to the previous one. -/
theorem progress_decreases_on_error_cex :
    (processAudioBlobStates mZh .fail ttsNone).map ProcessingState.progress = [20, 0] ∧
    ¬ List.Chain' (fun s₁ s₂ : ProcessingState => s₁.progress ≤ s₂.progress)
        (processAudioBlobStates mZh .fail ttsNone) := by
  refine ⟨rfl, fun h => ?_⟩
  have h' : List.Chain' (fun s₁ s₂ : ProcessingState => s₁.progress ≤ s₂.progress)
      [(⟨.UPLOADING, 20, mZh.understanding, none⟩ : ProcessingState),
       ⟨.ERROR, 0, mZh.statusError, some "SyntaxError: JSON parse failure"⟩] := h
  rw [List.chain'_cons] at h'
  exact absurd h'.1 (by simp)

/-- C5 (counterexample): submitting the URL workflow with an empty URL
field performs no state update at all — in particular it never enters a
terminal ERROR state carrying a message, refuting the claim that an
empty URL surfaces as an InvalidInput error. -/
theorem emptyUrl_no_error_state_cex :
    handleUrlSubmitStates mZh "" (.error "boom") (.ok ()) .fail ttsNone rtNone = [] ∧
    ∀ s ∈ handleUrlSubmitStates mZh "" (.error "boom") (.ok ()) .fail ttsNone rtNone,
      s.status ≠ .ERROR := by
  refine ⟨rfl, ?_⟩
  intro s hs
  rw [show handleUrlSubmitStates mZh "" (.error "boom") (.ok ()) .fail ttsNone rtNone
      = [] from rfl] at hs
  exact absurd hs (List.not_mem_nil s)

/-- C5 (amended): submitting the URL workflow with an empty (falsy) URL
field is a silent no-op: `handleUrlSubmit` returns before any state
update, whatever the remote outcomes would have been — no ERROR state,
no message, no error of any kind is surfaced. -/
theorem emptyUrl_noop (t : Msgs) (rres : Except String ResolveSuccess)
    (fres : Except String Unit) (tp : ParseResult)
    (tts : String → SynthResponse) (rt : String → TextTransData) :
    handleUrlSubmitStates t "" rres fres tp tts rt = [] := by
  simp [handleUrlSubmitStates]

/-! ## Theorems about the AudioCodec -/

/-- C9 (confirmed, codec modelled from the spec): for every 16-bit PCM
byte sequence of even length, the playable container is exactly a
44-byte header followed by the input bytes unchanged; the header
declares 1 channel (offset 22), sample rate 24000 (offset 24), and
16-bit depth (offset 34); and decoding the container's bytes after
skipping the 44-byte header reproduces the original sample amplitude
values exactly. -/
theorem createWavBlob_header_and_roundtrip (pcm : List Nat)
    (h : pcm.length % 2 = 0) :
    createWavBlob pcm 24000 = wavHeader pcm.length 24000 ++ pcm ∧
    (wavHeader pcm.length 24000).length = 44 ∧
    (createWavBlob pcm 24000).length = 44 + pcm.length ∧
    (createWavBlob pcm 24000).drop 44 = pcm ∧
    ((createWavBlob pcm 24000).drop 22).take 2 = [1, 0] ∧
    ((createWavBlob pcm 24000).drop 24).take 4 = [192, 93, 0, 0] ∧
    ((createWavBlob pcm 24000).drop 34).take 2 = [16, 0] ∧
    decodeSamples ((createWavBlob pcm 24000).drop 44) = decodeSamples pcm := by
  have hlen : (wavHeader pcm.length 24000).length = 44 := by
    simp [wavHeader, u16le, u32le]
  have hdrop : (createWavBlob pcm 24000).drop 44 = pcm :=
    List.drop_left' hlen
  refine ⟨rfl, hlen, ?_, hdrop, rfl, rfl, rfl, by rw [hdrop]⟩
  simp [createWavBlob, hlen]

/-- C9 (witness): the container theorem at the concrete two-byte PCM
input `[1, 2]`. -/
theorem createWavBlob_header_witness :
    createWavBlob [1, 2] 24000 = wavHeader 2 24000 ++ [1, 2] ∧
    (wavHeader 2 24000).length = 44 ∧
    (createWavBlob [1, 2] 24000).length = 44 + 2 ∧
    (createWavBlob [1, 2] 24000).drop 44 = [1, 2] ∧
    ((createWavBlob [1, 2] 24000).drop 22).take 2 = [1, 0] ∧
    ((createWavBlob [1, 2] 24000).drop 24).take 4 = [192, 93, 0, 0] ∧
    ((createWavBlob [1, 2] 24000).drop 34).take 2 = [16, 0] ∧
    decodeSamples ((createWavBlob [1, 2] 24000).drop 44) = decodeSamples [1, 2] := by
  have h := createWavBlob_header_and_roundtrip [1, 2] (by decide)
  simpa using h

end LinguaBridge
